import Mathlib

/-!
Shallow embedding of the `powerbool` Rust crate (`src/lib.rs`).

Every Rust method here takes `&mut self` and returns `bool`.  We model each
one as a pure function from the initial value (and the argument, if any) to
the pair `(return value, final value)`.
-/

namespace PowerBool

/-- Required method of the `PowerBool` trait, `impl PowerBool for bool`:
`fn set(&mut self, val: bool) -> bool { let ret = *self != val; *self = val; ret }`. -/
def set (b v : Bool) : Bool × Bool := (b != v, v)

/-- Required method of the `PowerBool` trait, `impl PowerBool for bool`:
`fn trip(&mut self, val: bool) -> bool { let ret = val && !*self; if ret { *self = true; } ret }`. -/
def trip (b v : Bool) : Bool × Bool :=
  let ret := v && !b
  (ret, if ret then true else b)

/-- Default method `fn raise(&mut self) -> bool { self.set(true) }`. -/
def raise (b : Bool) : Bool × Bool := set b true

/-- Default method `fn lower(&mut self) -> bool { self.set(false) }`. -/
def lower (b : Bool) : Bool × Bool := set b false

/-- Default method `fn kick(&mut self) -> bool { !self.set(false) }`:
the underlying `set` still mutates the value, only the return is negated. -/
def kick (b : Bool) : Bool × Bool :=
  let r := set b false
  (!r.1, r.2)

/-- Default method `fn punch(&mut self) -> bool { !self.set(true) }`. -/
def punch (b : Bool) : Bool × Bool :=
  let r := set b true
  (!r.1, r.2)

end PowerBool

namespace Change

/-- Generic mutator, `impl<T: PartialEq> Change for T`:
`fn change(&mut self, v: Self) -> bool { if self != &v { *self = v; true } else { false } }`.
Equality on `T` is modelled by decidable propositional equality. -/
def change {T : Type} [DecidableEq T] (a v : T) : Bool × T :=
  if a ≠ v then (true, v) else (false, a)

end Change

/-- C1: for every initial boolean value `b` and every boolean argument `v`,
`set v` returns `b != v`, and after the call the value equals `v`. -/
theorem set_spec : ∀ b v : Bool,
    (PowerBool.set b v).1 = (b != v) ∧ (PowerBool.set b v).2 = v := by decide

/-- C2: for every initial boolean value `b` and every boolean argument `v`,
`trip v` returns `v && !b`, and after the call the value equals
`b || (v && !b)`: it becomes true iff `v` is true and `b` was false, and is
otherwise unchanged. -/
theorem trip_spec : ∀ b v : Bool,
    (PowerBool.trip b v).1 = (v && !b) ∧
    (PowerBool.trip b v).2 = (b || (v && !b)) ∧
    ((PowerBool.trip b v).2 = true ↔ (b = true ∨ (v = true ∧ b = false))) := by decide

/-- C3: for every current value `a` and argument `v` of any type with
decidable equality, `change a v` returns whether `a ≠ v` held before the
mutation, and afterwards the value always equals `v`. -/
theorem change_spec {T : Type} [DecidableEq T] (a v : T) :
    (Change.change a v).1 = decide (a ≠ v) ∧ (Change.change a v).2 = v := by
  by_cases h : a = v <;> simp [Change.change, h]

/-- Witness for C3 at the concrete spec scenario `value = 1`, `change 2`. -/
theorem change_spec_witness :
    (Change.change (1 : ℕ) 2).1 = decide ((1 : ℕ) ≠ 2) ∧
    (Change.change (1 : ℕ) 2).2 = 2 :=
  change_spec 1 2

/-- C4: for every value of any type with decidable equality, calling `change`
twice in a row with the same argument makes the second call return false. -/
theorem change_twice {T : Type} [DecidableEq T] (a v : T) :
    (Change.change (Change.change a v).2 v).1 = false := by
  by_cases h : a = v <;> simp [Change.change, h]

/-- Witness for C4 at the concrete spec scenario `value = 1`, `change 2` twice. -/
theorem change_twice_witness :
    (Change.change (Change.change (1 : ℕ) 2).2 2).1 = false :=
  change_twice 1 2

/-- C5: for every initial boolean value, `raise` returns the same result and
produces the same final value as `set true`, and `lower` likewise agrees with
`set false`. -/
theorem raise_lower_equiv_set : ∀ b : Bool,
    PowerBool.raise b = PowerBool.set b true ∧
    PowerBool.lower b = PowerBool.set b false := by decide

/-- C6: for every initial boolean value `b`, `kick` returns the negation of
what `set false` returns (true iff the value was already false) and leaves
the value false; `punch` returns the negation of what `set true` returns
(true iff the value was already true) and leaves the value true. -/
theorem kick_punch_spec : ∀ b : Bool,
    (PowerBool.kick b).1 = !(PowerBool.set b false).1 ∧
    (PowerBool.kick b).1 = !b ∧
    (PowerBool.kick b).2 = false ∧
    (PowerBool.punch b).1 = !(PowerBool.set b true).1 ∧
    (PowerBool.punch b).1 = b ∧
    (PowerBool.punch b).2 = true := by decide

/-- C7: for every initial boolean value, the second of two consecutive
`raise` calls returns false with the value stable at true, and the second of
two consecutive `lower` calls returns false with the value stable at false. -/
theorem raise_lower_idempotent : ∀ b : Bool,
    (PowerBool.raise (PowerBool.raise b).2).1 = false ∧
    (PowerBool.raise (PowerBool.raise b).2).2 = true ∧
    (PowerBool.lower (PowerBool.lower b).2).1 = false ∧
    (PowerBool.lower (PowerBool.lower b).2).2 = false := by decide

/-- C8: `trip` is monotone upward: when the value is already true it never
returns true, and it never moves the value from true to false. -/
theorem trip_monotone : ∀ v : Bool,
    (PowerBool.trip true v).1 = false ∧ (PowerBool.trip true v).2 = true := by decide

/-- C9: on booleans, `change` is extensionally equal to `set`: same return
value and same final value for every initial value and argument. -/
theorem change_bool_equiv_set : ∀ b v : Bool,
    Change.change b v = PowerBool.set b v := by decide

/-- C10: every operation is deterministic: two runs from identical initial
values and identical arguments produce identical returns and final values. -/
theorem ops_deterministic (b₁ b₂ v₁ v₂ : Bool) {T : Type} [DecidableEq T]
    (a₁ a₂ x₁ x₂ : T)
    (hb : b₁ = b₂) (hv : v₁ = v₂) (ha : a₁ = a₂) (hx : x₁ = x₂) :
    PowerBool.set b₁ v₁ = PowerBool.set b₂ v₂ ∧
    PowerBool.raise b₁ = PowerBool.raise b₂ ∧
    PowerBool.lower b₁ = PowerBool.lower b₂ ∧
    PowerBool.trip b₁ v₁ = PowerBool.trip b₂ v₂ ∧
    PowerBool.kick b₁ = PowerBool.kick b₂ ∧
    PowerBool.punch b₁ = PowerBool.punch b₂ ∧
    Change.change a₁ x₁ = Change.change a₂ x₂ := by
  subst hb; subst hv; subst ha; subst hx
  exact ⟨rfl, rfl, rfl, rfl, rfl, rfl, rfl⟩

/-- Witness for C10 at concrete inputs. -/
theorem ops_deterministic_witness :
    PowerBool.set true false = PowerBool.set true false ∧
    PowerBool.raise true = PowerBool.raise true ∧
    PowerBool.lower true = PowerBool.lower true ∧
    PowerBool.trip true false = PowerBool.trip true false ∧
    PowerBool.kick true = PowerBool.kick true ∧
    PowerBool.punch true = PowerBool.punch true ∧
    Change.change (1 : ℕ) 2 = Change.change (1 : ℕ) 2 :=
  ops_deterministic true true false false (1 : ℕ) 1 2 2 rfl rfl rfl rfl
